import Mathlib

/-!
Shallow embedding of the stripe-ecommerce backend (order service, webhook
callback handler and checkout request handler), translated from
`src/services/order.service.js` (the final, most complete service variant)
and `src/controllers/payment.controller.js`.

JavaScript conventions are made explicit:
* `a || b` on numbers falls through on `0`, `null` and `undefined`
  (`jsNum`), on strings it falls through on the empty string (`jsStr`);
* fallible awaited database / network calls are modelled by boolean
  failure-injection flags in `DbEnv`, one per call site;
* thrown exceptions are `Except.error`; the store threads through every
  call so that writes performed before a throw persist.
-/

deriving instance DecidableEq for Except

namespace StripeEcommerce

/-- JS `a || b` where `a` is a nullable number: `null`/`undefined` and `0`
are falsy. -/
def jsNum (a : Option Int) (b : Int) : Int :=
  match a with
  | none => b
  | some v => if v = 0 then b else v

/-- JS `a || b` on strings: the empty string is falsy. -/
def jsStr (a b : String) : String :=
  if a = "" then b else a

/-- JS `a || null` on a nullable string field. -/
def jsOptStr (a : Option String) : Option String :=
  match a with
  | none => none
  | some s => if s = "" then none else some s

/-- JS `a || b` where `a` is a nullable string and `b` a default. -/
def jsStrDefault (a : Option String) (b : String) : String :=
  match a with
  | none => b
  | some s => if s = "" then b else s

/-- Row of the `products` table (fields read by the order service). -/
structure Product where
  id : String
  name : String
  price : Int
  sale_price : Option Int
  sold_items : Option Int
deriving Repr, DecidableEq

/-- Row of the `cart_items` table. -/
structure CartItem where
  id : String
  cart_id : String
  product_id : String
  quantity : Int
  selected_color : Option String
  selected_size : Option String
  delivery_option : Option String
deriving Repr, DecidableEq

/-- Row of the `orders` table (fields written by `createOrderWithPayment`;
`id` is the database-generated key, modelled by a counter). -/
structure Order where
  id : Nat
  user_id : String
  stripe_session_id : String
  total_amount : Int
  currency : String
  status : String
  shipping_address : String
deriving Repr, DecidableEq

/-- Row of the `order_items` table. -/
structure OrderItem where
  order_id : Nat
  product_id : String
  quantity : Int
  price : Int
  selected_color : Option String
  selected_size : Option String
  delivery_option : String
  status : String
deriving Repr, DecidableEq

/-- The relational store: the four tables the order service touches, plus
the generator for order ids. -/
structure Store where
  orders : List Order
  order_items : List OrderItem
  cart_items : List CartItem
  products : List Product
  nextOrderId : Nat
deriving Repr, DecidableEq

/-- Failure injection: one flag per awaited external call in the service
and handlers.  `staleRead` models the upfront idempotency lookup missing a
row that a concurrent retry has already committed (the read race of
webhook redelivery); the unique constraint at insert time is still
enforced against the true store. -/
structure DbEnv where
  checkFail : Bool := false
  staleRead : Bool := false
  cartFetchFail : Bool := false
  orderInsertFail : Bool := false
  dupFetchFail : Bool := false
  itemsInsertFail : Bool := false
  invFetchFail : Bool := false
  invUpdateFail : Bool := false
  clearFetchFail : Bool := false
  clearDeleteFail : Bool := false
  emailFail : Bool := false
deriving Repr, DecidableEq

/-- Environment in which every external call succeeds. -/
def DbEnv.allOk : DbEnv := {}

/-- A `cart_items` row joined with its `products` row, as returned by the
service's select with the nested `products ( id, name, price, sale_price )`
relation (`none` when the referenced product row is absent). -/
structure JoinedCartItem where
  item : CartItem
  products : Option Product
deriving Repr, DecidableEq

/-- The cart-items select: all rows of `cart_items` with the given
`cart_id`, each joined with its product. -/
def joinCart (st : Store) (cartid : String) : List JoinedCartItem :=
  (st.cart_items.filter (fun ci => ci.cart_id = cartid)).map
    (fun ci => { item := ci, products := st.products.find? (fun p => p.id = ci.product_id) })

/-- `item.products?.sale_price || item.products?.price || 0` for a present
product: JS `||` falls through on a `0` or null `sale_price`. -/
def effectivePrice (p : Product) : Int :=
  jsNum p.sale_price (jsNum (some p.price) 0)

/-- The same price expression including the optional-chaining step: a
missing joined product resolves the whole chain to `0`. -/
def itemPrice (op : Option Product) : Int :=
  match op with
  | none => 0
  | some p => effectivePrice p

/-- `cartItems.reduce((sum, item) => sum + productPrice * item.quantity, 0)`
from `createOrderWithPayment`. -/
def orderTotal (rows : List JoinedCartItem) : Int :=
  rows.foldl (fun sum r => sum + itemPrice r.products * r.item.quantity) 0

/-- Result object of `clearCartItems`. -/
structure ClearResult where
  success : Bool
  deletedCount : Nat
  message : String
  deletedItems : List CartItem
  cartId : Option String
deriving Repr, DecidableEq

/-- `clearCartItems(cartId)` from the order service: fetch the rows for
logging, return early on a falsy cart id or an empty cart, delete the rows
otherwise.  Errors are rethrown to the caller. -/
def clearCartItems (env : DbEnv) (cartId : String) (st : Store) :
    Except String ClearResult × Store :=
  if cartId = "" then
    (Except.ok { success := true, deletedCount := 0, message := "No cart ID provided",
                 deletedItems := [], cartId := none }, st)
  else if env.clearFetchFail then
    (Except.error "Failed to fetch cart items", st)
  else
    let cartItems := st.cart_items.filter (fun ci => ci.cart_id = cartId)
    if cartItems.isEmpty then
      (Except.ok { success := true, deletedCount := 0, message := "No cart items found",
                   deletedItems := [], cartId := none }, st)
    else if env.clearDeleteFail then
      (Except.error "Failed to delete cart items", st)
    else
      (Except.ok { success := true, deletedCount := cartItems.length,
                   message := "Cart items cleared successfully",
                   deletedItems := cartItems, cartId := some cartId },
       { st with cart_items := st.cart_items.filter (fun ci => ¬ ci.cart_id = cartId) })

/-- Overwrite the `sold_items` column of the product with the given id. -/
def setSoldItems (st : Store) (pid : String) (n : Int) : Store :=
  { st with products :=
      st.products.map (fun p => if p.id = pid then { p with sold_items := some n } else p) }

/-- The `for (const orderItem of orderItems)` loop of `updateInventory`:
each iteration reads `sold_items` from the `inventory` snapshot fetched
before the loop (never from the store being updated) and overwrites the
product row with snapshot value plus that line's quantity.  An injected
update failure throws, leaving the updates of earlier iterations in
place. -/
def updateInventoryLoop (env : DbEnv) (inventory : List Product)
    (items : List OrderItem) (st : Store) : Except String Unit × Store :=
  match items with
  | [] => (Except.ok (), st)
  | oi :: rest =>
    match inventory.find? (fun p => p.id = oi.product_id) with
    | none => updateInventoryLoop env inventory rest st
    | some product =>
      if env.invUpdateFail then
        (Except.error ("Failed to update inventory for product " ++ product.id), st)
      else
        updateInventoryLoop env inventory rest
          (setSoldItems st product.id (jsNum product.sold_items 0 + oi.quantity))

/-- `updateInventory(orderItems)` from the order service: fetch the current
`sold_items` for all ordered products once, then run the update loop. -/
def updateInventory (env : DbEnv) (orderItems : List OrderItem) (st : Store) :
    Except String Unit × Store :=
  if orderItems.isEmpty then
    (Except.ok (), st)
  else if env.invFetchFail then
    (Except.error "Failed to fetch inventory", st)
  else
    let inventory := st.products.filter
      (fun p => (orderItems.map (fun oi => oi.product_id)).contains p.id)
    if inventory.isEmpty then
      (Except.error "No inventory found for products", st)
    else
      updateInventoryLoop env inventory orderItems st

/-- Result object of `createOrderWithPayment`.  On the two
already-exists returns the JS object carries no `orderItems`,
`cartCleared` or `emailSent` keys; the absent fields are modelled as
`[]`, `none` and `false`. -/
structure CreateResult where
  success : Bool
  order : Order
  orderItems : List OrderItem
  message : Option String
  isExisting : Bool
  cartCleared : Option ClearResult
  emailSent : Bool
deriving Repr, DecidableEq

/-- The order item built from one joined cart item
(`cartItems.map((cartItem) => ...)` in `createOrderWithPayment`). -/
def buildOrderItem (orderId : Nat) (r : JoinedCartItem) : OrderItem :=
  { order_id := orderId
    product_id := r.item.product_id
    quantity := r.item.quantity
    price := itemPrice r.products
    selected_color := jsOptStr r.item.selected_color
    selected_size := jsOptStr r.item.selected_size
    delivery_option := jsStrDefault r.item.delivery_option "pay_on_website"
    status := "pending" }

/-- Outcome of the guarded order-row insert: a freshly inserted row, or
the already-exists result produced by the duplicate-key fallback. -/
inductive InsertOutcome where
  | fresh : Order → InsertOutcome
  | dup : CreateResult → InsertOutcome
deriving Repr, DecidableEq

/-- The order row built by the insert of step 5: computed total, default
currency `"NPR"`, `status || "processing"`, the shipping address from the
callback metadata, and the generated id. -/
def newOrderRow (userId address stat stripeSessionId : String) (totalAmount : Int)
    (st : Store) : Order :=
  { id := st.nextOrderId, user_id := userId,
    stripe_session_id := stripeSessionId, total_amount := totalAmount,
    currency := "NPR", status := jsStr stat "processing",
    shipping_address := address }

/-- Step 5 of `createOrderWithPayment`: the order insert guarded by the
unique constraint on `stripe_session_id`.  A generic insert error is
fatal; the duplicate-key error (code 23505 naming `stripe_session_id`)
triggers the fallback that re-fetches the existing row with `.single()`
and returns it with `isExisting` (`.single()` on zero rows is itself an
error). -/
def insertOrderRow (env : DbEnv) (userId address stat stripeSessionId : String)
    (totalAmount : Int) (st : Store) : Except String InsertOutcome × Store :=
  if env.orderInsertFail then (Except.error "Failed to create order in database", st)
  else if st.orders.any (fun o => o.stripe_session_id = stripeSessionId) then
    if env.dupFetchFail then
      (Except.error "Failed to fetch existing order after duplicate key error", st)
    else
      match st.orders.find? (fun o => o.stripe_session_id = stripeSessionId) with
      | none => (Except.error "Failed to fetch existing order after duplicate key error", st)
      | some o =>
        (Except.ok (InsertOutcome.dup
          { success := true, order := o, orderItems := [],
            message := some "Order already exists (handled duplicate key)",
            isExisting := true, cartCleared := none, emailSent := false }), st)
  else
    (Except.ok (InsertOutcome.fresh (newOrderRow userId address stat stripeSessionId totalAmount st)),
     { st with orders := st.orders ++ [newOrderRow userId address stat stripeSessionId totalAmount st],
               nextOrderId := st.nextOrderId + 1 })

/-- Steps 6–9 of `createOrderWithPayment`, entered with the order row
already inserted (`st1`): batch order-items insert (fatal on failure, the
order row persists), `updateInventory` wrapped in try/catch (failure
swallowed), `clearCartItems` NOT wrapped (its throw propagates), then the
confirmation email wrapped in try/catch (failure swallowed) — the result
reports `emailSent := true` unconditionally on this path. -/
def finishOrder (env : DbEnv) (cartid : String) (order : Order)
    (cartItems : List JoinedCartItem) (st1 : Store) : Except String CreateResult × Store :=
  if env.itemsInsertFail then
    (Except.error "Failed to create order items in database", st1)
  else
    -- items inserted, then the inventory update (try/catch, failure
    -- swallowed), then cart clearing (not wrapped: an error propagates)
    match clearCartItems env cartid
        (updateInventory env (cartItems.map (buildOrderItem order.id))
          { st1 with order_items :=
              st1.order_items ++ cartItems.map (buildOrderItem order.id) }).2 with
    | (Except.error e, st4) => (Except.error e, st4)
    | (Except.ok cartResult, st4) =>
      -- email: try/catch, failure swallowed; `env.emailFail` affects
      -- neither the result nor the store
      (Except.ok { success := true, order := order,
                   orderItems := cartItems.map (buildOrderItem order.id),
                   message := none, isExisting := false,
                   cartCleared := some cartResult, emailSent := true }, st4)

/-- `createOrderWithPayment(userId, cartid, address, status, stripeSessionId)`
from the order service, translated step by step:
1. required-field validation;
2. upfront lookup of an order with this `stripe_session_id` (short-circuit
   with `isExisting` when found);
3. cart-items fetch with product join, empty-cart rejection;
4. total from JS-truthy effective prices;
5. `insertOrderRow` (unique-constraint guarded insert with the
   duplicate-key fallback);
6.–9. `finishOrder` (order items, inventory, cart clearing, email). -/
def createOrderWithPayment (env : DbEnv) (userId cartid address stat stripeSessionId : String)
    (st : Store) : Except String CreateResult × Store :=
  if userId = "" then (Except.error "User ID is required", st)
  else if stripeSessionId = "" then (Except.error "Stripe session ID is required", st)
  else if cartid = "" then (Except.error "Cart ID is required", st)
  else if env.checkFail then (Except.error "Failed to check existing order", st)
  else
    match (if env.staleRead then none
           else st.orders.find? (fun o => o.stripe_session_id = stripeSessionId)) with
    | some o =>
      (Except.ok { success := true, order := o, orderItems := [],
                   message := some "Order already exists", isExisting := true,
                   cartCleared := none, emailSent := false }, st)
    | none =>
      if env.cartFetchFail then (Except.error "Failed to fetch cart items", st)
      else if (joinCart st cartid).isEmpty then (Except.error "No cart items found", st)
      else
        match insertOrderRow env userId address stat stripeSessionId
            (orderTotal (joinCart st cartid)) st with
        | (Except.error e, st2) => (Except.error e, st2)
        | (Except.ok (InsertOutcome.dup r), st2) => (Except.ok r, st2)
        | (Except.ok (InsertOutcome.fresh order), st2) =>
          finishOrder env cartid order (joinCart st cartid) st2

/-- Session metadata as read back from the completion callback.
`addressJson` is the result of `JSON.parse(session.metadata.address)`:
`none` models a parse throw (missing or malformed), `some a` the parsed
address. -/
structure Metadata where
  userId : String
  cartid : String
  addressJson : Option String
deriving Repr, DecidableEq

/-- `event.data.object` for a checkout-session event. -/
structure Session where
  id : String
  metadata : Metadata
deriving Repr, DecidableEq

/-- The parsed event envelope. -/
structure StripeEvent where
  type : String
  objectSession : Session
deriving Repr, DecidableEq

/-- The raw webhook request body: `express.raw` may hand the handler a
non-Buffer, and `JSON.parse` of the buffer text may throw (`buffer none`). -/
inductive WebBody where
  | notBuffer : WebBody
  | buffer : Option StripeEvent → WebBody
deriving Repr, DecidableEq

/-- Inbound webhook request: the `stripe-signature` header (absent =
`none`) and the raw body. -/
structure WebRequest where
  signature : Option String
  body : WebBody
deriving Repr, DecidableEq

/-- Response body sent by the webhook route. -/
inductive RespBody where
  | err : String → RespBody
  | ack : Bool → Bool → RespBody
deriving Repr, DecidableEq

/-- HTTP response of the webhook route. -/
structure WebResponse where
  status : Nat
  body : RespBody
deriving Repr, DecidableEq

/-- JS truthiness of the signature header value. -/
def sigPresent (sig : Option String) : Bool :=
  match sig with
  | none => false
  | some s => s ≠ ""

/-- The `webhook` route handler from `payment.controller.js`: checks only
the PRESENCE of the `stripe-signature` header (the body is never
authenticated against the webhook secret), requires a Buffer body, parses
it as JSON, and for a `checkout.session.completed` event parses the
metadata address and awaits `createOrderWithPayment`.  The inner `catch
(parseErr)` also catches a throw from the order service, answering
`400 "Failed to parse webhook body"`; otherwise the route acknowledges
`200 {received:true, success:true}`.  The post-response
`stripeService.handleWebhookEvent` call only logs and is omitted. -/
def webhook (env : DbEnv) (req : WebRequest) (st : Store) : WebResponse × Store :=
  if ¬ sigPresent req.signature then
    ({ status := 400, body := RespBody.err "Stripe signature missing" }, st)
  else
    match req.body with
    | WebBody.notBuffer =>
      ({ status := 400, body := RespBody.err "Raw body is not a Buffer" }, st)
    | WebBody.buffer none =>
      ({ status := 400, body := RespBody.err "Failed to parse webhook body" }, st)
    | WebBody.buffer (some event) =>
      if event.type = "checkout.session.completed" then
        let session := event.objectSession
        match session.metadata.addressJson with
        | none => ({ status := 400, body := RespBody.err "Failed to parse metadata" }, st)
        | some parsedAddress =>
          match createOrderWithPayment env session.metadata.userId session.metadata.cartid
              parsedAddress "processing" session.id st with
          | (Except.error _, st2) =>
            ({ status := 400, body := RespBody.err "Failed to parse webhook body" }, st2)
          | (Except.ok _, st2) =>
            ({ status := 200, body := RespBody.ack true true }, st2)
      else
        ({ status := 200, body := RespBody.ack true true }, st)

/-- One entry of `formatedCartItems` in the checkout request (fields used
by the totals computation and cart-id derivation). -/
structure FormattedCartItem where
  cart_id : String
  product_id : String
  price : Int
  quantity : Int
  total : Int
deriving Repr, DecidableEq

/-- `formatedCartItems.reduce((sum, item) => sum + item.total, 0)` from
`createPayment`. -/
def createPaymentTotal (items : List FormattedCartItem) : Int :=
  items.foldl (fun sum i => sum + i.total) 0

/-- Successful checkout response (fields derived in `createPayment`). -/
structure PaymentResponse where
  success : Bool
  orderId : String
  totalAmount : Int
  orders : List FormattedCartItem
deriving Repr, DecidableEq

/-- The validation and response-shaping logic of `createPayment`: rejects a
falsy `userId` or an empty item list (`none` = 400), otherwise reports the
reduced `totalAmount` to the caller (the same amount is placed in the
gateway session's `orderData.amount`). -/
def createPayment (userId userEmail : String) (items : List FormattedCartItem) :
    Option PaymentResponse :=
  if userId = "" then none
  else if items.isEmpty then none
  else some
    { success := true
      orderId := "order_" ++ userEmail ++ "_" ++ userId
      totalAmount := createPaymentTotal items
      orders := items }

/-- Number of order rows carrying the given stripe session id. -/
def ordersFor (st : Store) (s : String) : Nat :=
  (st.orders.filter (fun o => o.stripe_session_id = s)).length

/-- Modelled from the spec (§4.3 step 4 wording, for comparison with the
code's `effectivePrice`): effective unit price is `sale_price` whenever it
is present and non-null, else `price`. -/
def specEffectivePrice (p : Product) : Int :=
  match p.sale_price with
  | some sp => sp
  | none => p.price

/-- Modelled from the spec (§4.1 wording, for comparison with the code's
`createPaymentTotal`): `totalAmount` = sum of each item's
`price × quantity`. -/
def specCheckoutTotal (items : List FormattedCartItem) : Int :=
  (items.map (fun i => i.price * i.quantity)).sum

/-! ### Concrete fixtures used by witnesses and counterexamples -/

/-- A product on sale: list price 100, sale price 80, 10 sold so far. -/
def demoProduct : Product :=
  { id := "p1", name := "Shoe", price := 100, sale_price := some 80, sold_items := some 10 }

/-- A product with no sale price (spec example `sale_price=null, price=50`). -/
def priceOnlyProduct : Product :=
  { id := "p3", name := "Sock", price := 50, sale_price := none, sold_items := none }

/-- A product whose sale price column holds the number `0`. -/
def zeroSaleProduct : Product :=
  { id := "p2", name := "Cap", price := 50, sale_price := some 0, sold_items := none }

/-- A single cart row: 3 units of `p1` in cart `c1`. -/
def demoCartItem : CartItem :=
  { id := "ci1", cart_id := "c1", product_id := "p1", quantity := 3,
    selected_color := none, selected_size := none, delivery_option := none }

/-- Initial store: empty `orders`/`order_items`, one cart row, one product. -/
def demoStore : Store :=
  { orders := [], order_items := [], cart_items := [demoCartItem],
    products := [demoProduct], nextOrderId := 1 }

/-- The order row the demo invocation inserts (3 × sale price 80 = 240). -/
def demoNewOrder : Order :=
  { id := 1, user_id := "u1", stripe_session_id := "sess1", total_amount := 240,
    currency := "NPR", status := "processing", shipping_address := "addr" }

/-- The order-item row built from `demoCartItem`. -/
def demoOrderItemRow : OrderItem :=
  { order_id := 1, product_id := "p1", quantity := 3, price := 80,
    selected_color := none, selected_size := none,
    delivery_option := "pay_on_website", status := "pending" }

/-- The cart-clearing result of the demo invocation. -/
def demoClearResult : ClearResult :=
  { success := true, deletedCount := 1, message := "Cart items cleared successfully",
    deletedItems := [demoCartItem], cartId := some "c1" }

/-- The happy-path result object of the demo invocation. -/
def demoSuccess : CreateResult :=
  { success := true, order := demoNewOrder, orderItems := [demoOrderItemRow],
    message := none, isExisting := false, cartCleared := some demoClearResult,
    emailSent := true }

/-- The store after the demo invocation succeeds with every call ok. -/
def demoStoreAfter : Store :=
  { orders := [demoNewOrder], order_items := [demoOrderItemRow], cart_items := [],
    products := [{ demoProduct with sold_items := some 13 }], nextOrderId := 2 }

/-- An order for the same product split over two lines (quantities 2 and 3),
as produced when the same product sits in a cart twice with different
selected sizes. -/
def rptItems : List OrderItem :=
  [ { order_id := 1, product_id := "p1", quantity := 2, price := 80,
      selected_color := none, selected_size := some "M",
      delivery_option := "pay_on_website", status := "pending" },
    { order_id := 1, product_id := "p1", quantity := 3, price := 80,
      selected_color := none, selected_size := some "L",
      delivery_option := "pay_on_website", status := "pending" } ]

/-- Store holding only the product `p1` with `sold_items = 10`. -/
def rptStore : Store :=
  { orders := [], order_items := [], cart_items := [], products := [demoProduct],
    nextOrderId := 1 }

/-- A webhook request whose `stripe-signature` header holds a value no
secret ever signed, carrying a parseable `checkout.session.completed`
body for session `sess1` / cart `c1`. -/
def demoReq : WebRequest :=
  { signature := some "t=12,v1=nonsense"
  , body := WebBody.buffer (some
      { type := "checkout.session.completed"
      , objectSession :=
        { id := "sess1"
        , metadata := { userId := "u1", cartid := "c1", addressJson := some "Kathmandu" } } }) }

/-- A checkout line whose client-supplied `total` (999) disagrees with its
`price × quantity` (10 × 2 = 20). -/
def mismatchedItem : FormattedCartItem :=
  { cart_id := "c1", product_id := "p1", price := 10, quantity := 2, total := 999 }

/-- A checkout line whose `total` equals its `price × quantity`. -/
def consistentItem : FormattedCartItem :=
  { cart_id := "c1", product_id := "p1", price := 10, quantity := 2, total := 20 }

/-- The result returned when the upfront lookup finds the existing order. -/
def demoExistingResult : CreateResult :=
  { success := true, order := demoNewOrder, orderItems := [],
    message := some "Order already exists", isExisting := true,
    cartCleared := none, emailSent := false }

/-- Environment in which the per-product inventory update and the
confirmation email both fail. -/
def bestEffortEnv : DbEnv := { invUpdateFail := true, emailFail := true }

/-- Environment in which only the confirmation email fails. -/
def emailFailEnv : DbEnv := { emailFail := true }

/-- Environment in which the cart-items delete fails. -/
def clearFailEnv : DbEnv := { clearDeleteFail := true }

/-- Environment in which the order-row insert fails. -/
def insertFailEnv : DbEnv := { orderInsertFail := true }

/-- Store whose cart `c1` holds no rows. -/
def emptyCartStore : Store :=
  { orders := [], order_items := [], cart_items := [], products := [demoProduct],
    nextOrderId := 1 }

/-! ### Helper lemmas -/

theorem foldl_add_map {α : Type} (f : α → Int) (l : List α) (a : Int) :
    l.foldl (fun s x => s + f x) a = a + (l.map f).sum := by
  induction l generalizing a with
  | nil => simp
  | cons x xs ih => simp [ih, add_assoc]

theorem sum_map_congr {α : Type} {l : List α} {f g : α → Int}
    (h : ∀ x ∈ l, f x = g x) : (l.map f).sum = (l.map g).sum := by
  induction l with
  | nil => rfl
  | cons x xs ih =>
    simp only [List.map_cons, List.sum_cons]
    rw [h x (List.mem_cons_self x xs), ih (fun y hy => h y (List.mem_cons_of_mem x hy))]

theorem any_false_filter_eq_nil {α : Type} {p : α → Bool} {l : List α}
    (h : l.any p = false) : l.filter p = [] := by
  rw [List.filter_eq_nil_iff]
  intro a ha
  simpa using (List.any_eq_false.mp h) a ha

theorem filter_len_le_one_unique {α : Type} {p : α → Bool} {l : List α} {a b : α}
    (ha : a ∈ l) (hpa : p a = true) (hb : b ∈ l) (hpb : p b = true)
    (hlen : (l.filter p).length ≤ 1) : a = b := by
  have ha2 : a ∈ l.filter p := List.mem_filter.mpr ⟨ha, hpa⟩
  have hb2 : b ∈ l.filter p := List.mem_filter.mpr ⟨hb, hpb⟩
  match hf : l.filter p with
  | [] => rw [hf] at ha2; simp at ha2
  | [x] =>
    rw [hf] at ha2 hb2
    simp at ha2 hb2
    rw [ha2, hb2]
  | x :: y :: xs => rw [hf] at hlen; simp at hlen

theorem setSoldItems_frame (st : Store) (pid : String) (n : Int) :
    (setSoldItems st pid n).orders = st.orders ∧
    (setSoldItems st pid n).order_items = st.order_items ∧
    (setSoldItems st pid n).cart_items = st.cart_items ∧
    (setSoldItems st pid n).nextOrderId = st.nextOrderId :=
  ⟨rfl, rfl, rfl, rfl⟩

theorem updateInventoryLoop_frame (env : DbEnv) (inv : List Product)
    (items : List OrderItem) (st : Store) :
    (updateInventoryLoop env inv items st).2.orders = st.orders ∧
    (updateInventoryLoop env inv items st).2.order_items = st.order_items ∧
    (updateInventoryLoop env inv items st).2.cart_items = st.cart_items ∧
    (updateInventoryLoop env inv items st).2.nextOrderId = st.nextOrderId := by
  induction items generalizing st with
  | nil => exact ⟨rfl, rfl, rfl, rfl⟩
  | cons oi rest ih =>
    simp only [updateInventoryLoop]
    split
    · exact ih st
    · split
      · exact ⟨rfl, rfl, rfl, rfl⟩
      · exact ih _

theorem updateInventory_frame (env : DbEnv) (items : List OrderItem) (st : Store) :
    (updateInventory env items st).2.orders = st.orders ∧
    (updateInventory env items st).2.order_items = st.order_items ∧
    (updateInventory env items st).2.cart_items = st.cart_items ∧
    (updateInventory env items st).2.nextOrderId = st.nextOrderId := by
  simp only [updateInventory]
  split
  · exact ⟨rfl, rfl, rfl, rfl⟩
  · split
    · exact ⟨rfl, rfl, rfl, rfl⟩
    · split
      · exact ⟨rfl, rfl, rfl, rfl⟩
      · exact updateInventoryLoop_frame env _ items st

theorem clearCartItems_frame (env : DbEnv) (cid : String) (st : Store) :
    ((clearCartItems env cid st).2.orders = st.orders ∧
     (clearCartItems env cid st).2.order_items = st.order_items ∧
     (clearCartItems env cid st).2.products = st.products ∧
     (clearCartItems env cid st).2.nextOrderId = st.nextOrderId) := by
  simp only [clearCartItems]
  split
  · exact ⟨rfl, rfl, rfl, rfl⟩
  · split
    · exact ⟨rfl, rfl, rfl, rfl⟩
    · split
      · exact ⟨rfl, rfl, rfl, rfl⟩
      · split
        · exact ⟨rfl, rfl, rfl, rfl⟩
        · exact ⟨rfl, rfl, rfl, rfl⟩

theorem finishOrder_ok {env : DbEnv} {cartid : String} {order : Order}
    {cartItems : List JoinedCartItem} {st1 : Store} {r : CreateResult} {st4 : Store}
    (h : finishOrder env cartid order cartItems st1 = (Except.ok r, st4)) :
    r.success = true ∧ r.isExisting = false ∧ r.emailSent = true ∧
    r.order = order ∧ r.orderItems = cartItems.map (buildOrderItem order.id) := by
  unfold finishOrder at h
  split at h
  · exact Except.noConfusion (congrArg Prod.fst h)
  · split at h
    · exact Except.noConfusion (congrArg Prod.fst h)
    · have h1 := congrArg Prod.fst h
      injection h1 with h3
      subst h3
      exact ⟨rfl, rfl, rfl, rfl, rfl⟩

theorem insertOrderRow_dup {env : DbEnv} {u a s sid : String} {t : Int}
    {st : Store} {r : CreateResult} {st2 : Store}
    (h : insertOrderRow env u a s sid t st = (Except.ok (InsertOutcome.dup r), st2)) :
    st2 = st ∧ r.isExisting = true ∧
    st.orders.find? (fun o => o.stripe_session_id = sid) = some r.order := by
  unfold insertOrderRow at h
  split at h
  · exact Except.noConfusion (congrArg Prod.fst h)
  · split at h
    · split at h
      · exact Except.noConfusion (congrArg Prod.fst h)
      · split at h
        · exact Except.noConfusion (congrArg Prod.fst h)
        · next o hfind =>
          have h1 := congrArg Prod.fst h
          have h2 := congrArg Prod.snd h
          injection h1 with h3
          injection h3 with h4
          subst h4
          exact ⟨h2.symm, rfl, hfind⟩
    · have h1 := congrArg Prod.fst h
      injection h1 with h3
      exact InsertOutcome.noConfusion h3

theorem insertOrderRow_fresh {env : DbEnv} {u a s sid : String} {t : Int}
    {st : Store} {o : Order} {st2 : Store}
    (h : insertOrderRow env u a s sid t st = (Except.ok (InsertOutcome.fresh o), st2)) :
    o.stripe_session_id = sid ∧ o.id = st.nextOrderId ∧
    st.orders.any (fun o2 => o2.stripe_session_id = sid) = false ∧
    st2 = { st with orders := st.orders ++ [o], nextOrderId := st.nextOrderId + 1 } := by
  unfold insertOrderRow at h
  split at h
  · exact Except.noConfusion (congrArg Prod.fst h)
  · split at h
    · split at h
      · exact Except.noConfusion (congrArg Prod.fst h)
      · split at h
        · exact Except.noConfusion (congrArg Prod.fst h)
        · have h1 := congrArg Prod.fst h
          injection h1 with h3
          exact InsertOutcome.noConfusion h3
    · next hany =>
      have h1 := congrArg Prod.fst h
      have h2 := congrArg Prod.snd h
      injection h1 with h3
      injection h3 with h4
      subst h4
      exact ⟨rfl, rfl, Bool.of_not_eq_true hany, h2.symm⟩

/-! ### Theorems -/

/-- C2: the webhook route never authenticates the body against the webhook
secret.  `demoReq` carries a signature value no secret produced, yet the
handler parses the body, invokes order creation, creates an Order row and
acknowledges 200 — the claim requires rejection before any parsing and no
Order. -/
theorem C2_unauthenticated_callback_is_processed :
    sigPresent demoReq.signature = true ∧
    (webhook DbEnv.allOk demoReq demoStore).1 = { status := 200, body := RespBody.ack true true } ∧
    (webhook DbEnv.allOk demoReq demoStore).2.orders =
      [{ demoNewOrder with shipping_address := "Kathmandu" }] :=
  ⟨rfl, rfl, by decide⟩

/-- C3: when downstream order creation fails (order insert rejected), the
webhook route answers 400 "Failed to parse webhook body" instead of the
claimed unconditional 200 `{received:true, success:true}` — the inner
`catch (parseErr)` swallows the order-service throw. -/
theorem C3_order_creation_failure_changes_ack :
    (webhook { orderInsertFail := true } demoReq demoStore).1 =
      { status := 400, body := RespBody.err "Failed to parse webhook body" } :=
  rfl

/-- C5 counterexample: for a product whose `sale_price` column holds the
number `0` (present and non-null), the claim demands an effective price of
`0`, but the code's JS `||` chain falls through to the list price `50`. -/
theorem C5_counterexample_zero_sale_price :
    zeroSaleProduct.sale_price = some 0 ∧
    effectivePrice zeroSaleProduct ≠ specEffectivePrice zeroSaleProduct ∧
    effectivePrice zeroSaleProduct = 50 :=
  ⟨rfl, by decide, rfl⟩

/-- C8: ordering the same product on two lines (quantities 2 and 3,
`sold_items = 10`): every loop iteration re-reads `sold_items` from the
inventory snapshot fetched before the loop, so the final counter is
10 + 3 = 13, not the claimed 10 + (2 + 3) = 15 — the first line's
increment is lost. -/
theorem C8_repeated_product_lost_inventory_update :
    ((updateInventory DbEnv.allOk rptItems rptStore).2.products.map
      (fun p => p.sold_items)) = [some 13] ∧
    (updateInventory DbEnv.allOk rptItems rptStore).1 = Except.ok () ∧
    (13 : Int) ≠ 10 + (2 + 3) :=
  ⟨rfl, rfl, by decide⟩

/-- C9 counterexample: the checkout handler sums the client-supplied
`total` fields, not `price × quantity`; on a line with `price=10`,
`quantity=2`, `total=999` it reports 999 where the claim demands 20. -/
theorem C9_counterexample_client_total_trusted :
    createPaymentTotal [mismatchedItem] = 999 ∧
    specCheckoutTotal [mismatchedItem] = 20 ∧
    createPaymentTotal [mismatchedItem] ≠ specCheckoutTotal [mismatchedItem] :=
  ⟨rfl, rfl, by decide⟩

theorem pair_eq_fst {α β : Type} {a c : α} {b d : β} (h : (a, b) = (c, d)) : a = c :=
  congrArg Prod.fst h

theorem pair_eq_snd {α β : Type} {a c : α} {b d : β} (h : (a, b) = (c, d)) : b = d :=
  congrArg Prod.snd h

theorem snd_of_eq_pair {α β : Type} {x : α × β} {a : α} {b : β} (h : x = (a, b)) :
    x.2 = b := by rw [h]

theorem fst_of_eq_pair {α β : Type} {x : α × β} {a : α} {b : β} (h : x = (a, b)) :
    x.1 = a := by rw [h]

theorem insertOrderRow_error {env : DbEnv} {u a s sid : String} {t : Int}
    {st : Store} {e : String} {st2 : Store}
    (h : insertOrderRow env u a s sid t st = (Except.error e, st2)) : st2 = st := by
  unfold insertOrderRow at h
  split at h
  · exact (pair_eq_snd h).symm
  · split at h
    · split at h
      · exact (pair_eq_snd h).symm
      · split at h
        · exact (pair_eq_snd h).symm
        · exact Except.noConfusion (pair_eq_fst h)
    · exact Except.noConfusion (pair_eq_fst h)

theorem finishOrder_orders (env : DbEnv) (cartid : String) (order : Order)
    (rows : List JoinedCartItem) (st1 : Store) :
    (finishOrder env cartid order rows st1).2.orders = st1.orders := by
  unfold finishOrder
  split
  · rfl
  · split
    next e st4 heq =>
      have h2 := snd_of_eq_pair heq
      simp only []
      rw [← h2, (clearCartItems_frame _ _ _).1, (updateInventory_frame _ _ _).1]
    next cr st4 heq =>
      have h2 := snd_of_eq_pair heq
      simp only []
      rw [← h2, (clearCartItems_frame _ _ _).1, (updateInventory_frame _ _ _).1]

theorem createOrder_store_orders {env : DbEnv} {u c a s sid : String}
    {st : Store} {res : Except String CreateResult} {st2 : Store}
    (h : createOrderWithPayment env u c a s sid st = (res, st2)) :
    st2.orders = st.orders ∨
    (∃ o : Order, o.stripe_session_id = sid ∧ st2.orders = st.orders ++ [o] ∧
      st.orders.any (fun o2 => o2.stripe_session_id = sid) = false) := by
  unfold createOrderWithPayment at h
  split at h
  · exact Or.inl (congrArg Store.orders (pair_eq_snd h).symm)
  split at h
  · exact Or.inl (congrArg Store.orders (pair_eq_snd h).symm)
  split at h
  · exact Or.inl (congrArg Store.orders (pair_eq_snd h).symm)
  split at h
  · exact Or.inl (congrArg Store.orders (pair_eq_snd h).symm)
  split at h
  next o heq =>
    exact Or.inl (congrArg Store.orders (pair_eq_snd h).symm)
  next heq =>
    split at h
    · exact Or.inl (congrArg Store.orders (pair_eq_snd h).symm)
    split at h
    · exact Or.inl (congrArg Store.orders (pair_eq_snd h).symm)
    split at h
    next e st3 heq2 =>
      have hst : st3 = st2 := pair_eq_snd h
      rw [← hst, insertOrderRow_error heq2]
      exact Or.inl rfl
    next r2 st3 heq2 =>
      have hst : st3 = st2 := pair_eq_snd h
      rw [← hst, (insertOrderRow_dup heq2).1]
      exact Or.inl rfl
    next order st3 heq2 =>
      obtain ⟨hsid2, hid, hany, hst3⟩ := insertOrderRow_fresh heq2
      refine Or.inr ⟨order, hsid2, ?_, hany⟩
      have h2 := snd_of_eq_pair h
      rw [← h2, finishOrder_orders, hst3]

theorem find?_session_unique {st : Store} {sid : String} {o o2 : Order}
    (hcnt : ordersFor st sid ≤ 1) (ho : o ∈ st.orders) (hos : o.stripe_session_id = sid)
    (hf : st.orders.find? (fun o3 => o3.stripe_session_id = sid) = some o2) : o2 = o := by
  unfold ordersFor at hcnt
  have hmem := List.mem_of_find?_eq_some hf
  have hp := List.find?_some hf
  exact filter_len_le_one_unique hmem hp ho (by simp [hos]) hcnt

/-- C1: per invocation with a fixed stripe session id, starting from a store
holding at most one order for that session, the store still holds at most
one order for it afterwards (so N repeated calls leave exactly one row once
one exists), and any call that returns a result while an order for the
session already exists returns `isExisting = true` referencing that same
order id — via the upfront lookup when the read sees it, or via the
unique-key duplicate fallback when the read was stale. -/
theorem C1_idempotency_per_session
    (env : DbEnv) (u c a s sid : String) (st : Store)
    (hcnt : ordersFor st sid ≤ 1) :
    ordersFor (createOrderWithPayment env u c a s sid st).2 sid ≤ 1 ∧
    (∀ o ∈ st.orders, o.stripe_session_id = sid →
      ∀ r : CreateResult, (createOrderWithPayment env u c a s sid st).1 = Except.ok r →
        r.isExisting = true ∧ r.order.id = o.id) := by
  constructor
  · rcases createOrder_store_orders
      (Prod.mk.eta (p := createOrderWithPayment env u c a s sid st)).symm with
      hsame | ⟨o, hosid, happ, hany⟩
    · unfold ordersFor at hcnt ⊢
      rw [hsame]
      exact hcnt
    · unfold ordersFor at hcnt ⊢
      rw [happ, List.filter_append, any_false_filter_eq_nil hany]
      simp [hosid]
  · intro o ho hos r hok
    have h : createOrderWithPayment env u c a s sid st =
        (Except.ok r, (createOrderWithPayment env u c a s sid st).2) :=
      Prod.ext hok rfl
    unfold createOrderWithPayment at h
    split at h
    · exact Except.noConfusion (pair_eq_fst h)
    split at h
    · exact Except.noConfusion (pair_eq_fst h)
    split at h
    · exact Except.noConfusion (pair_eq_fst h)
    split at h
    · exact Except.noConfusion (pair_eq_fst h)
    split at h
    next o2 heq =>
      have h1 := pair_eq_fst h
      injection h1 with h3
      by_cases hs : env.staleRead = true
      · simp [hs] at heq
      · rw [if_neg hs] at heq
        have ho2 : o2 = o := find?_session_unique hcnt ho hos heq
        rw [← h3, ho2]
        exact ⟨rfl, rfl⟩
    next heq =>
      split at h
      · exact Except.noConfusion (pair_eq_fst h)
      split at h
      · exact Except.noConfusion (pair_eq_fst h)
      split at h
      next e st3 heq2 => exact Except.noConfusion (pair_eq_fst h)
      next r2 st3 heq2 =>
        have h1 := pair_eq_fst h
        injection h1 with h3
        obtain ⟨hst, hex, hfind⟩ := insertOrderRow_dup heq2
        have horder : r2.order = o := find?_session_unique hcnt ho hos hfind
        rw [← h3]
        exact ⟨hex, congrArg Order.id horder⟩
      next order st3 heq2 =>
        obtain ⟨hsid2, hid, hany, hst3⟩ := insertOrderRow_fresh heq2
        have htrue : st.orders.any (fun o2 => o2.stripe_session_id = sid) = true :=
          List.any_eq_true.mpr ⟨o, ho, by simp [hos]⟩
        rw [htrue] at hany
        exact Bool.noConfusion hany

theorem find?_none_any_false {st : Store} {sid : String}
    (h : st.orders.find? (fun o => o.stripe_session_id = sid) = none) :
    st.orders.any (fun o => o.stripe_session_id = sid) = false := by
  rw [List.any_eq_false]
  intro o ho
  simpa using List.find?_eq_none.mp h o ho

/-- C6: when an order for the session id already exists and the upfront
lookup sees it, `createOrderWithPayment` returns it immediately with the
already-exists indicator and the returned store is exactly the input store:
orders, order_items, cart_items and products are all untouched. -/
theorem C6_existing_order_short_circuit
    (env : DbEnv) (u c a s sid : String) (st : Store) (o : Order)
    (hu : u ≠ "") (hsid : sid ≠ "") (hc : c ≠ "")
    (hchk : env.checkFail = false) (hstale : env.staleRead = false)
    (hfind : st.orders.find? (fun o2 => o2.stripe_session_id = sid) = some o) :
    createOrderWithPayment env u c a s sid st =
      (Except.ok { success := true, order := o, orderItems := [],
                   message := some "Order already exists", isExisting := true,
                   cartCleared := none, emailSent := false }, st) := by
  unfold createOrderWithPayment
  simp [hu, hsid, hc, hchk, hstale, hfind]

/-- C7: when no order exists for the session and the cart id resolves to
zero cart items, the call fails with the "No cart items found" error and
the store is returned unchanged — no order row, order-item row, inventory
change or cart deletion. -/
theorem C7_empty_cart_rejected
    (env : DbEnv) (u c a s sid : String) (st : Store)
    (hu : u ≠ "") (hsid : sid ≠ "") (hc : c ≠ "")
    (hchk : env.checkFail = false) (hstale : env.staleRead = false)
    (hcf : env.cartFetchFail = false)
    (hfind : st.orders.find? (fun o2 => o2.stripe_session_id = sid) = none)
    (hempty : joinCart st c = []) :
    createOrderWithPayment env u c a s sid st = (Except.error "No cart items found", st) := by
  unfold createOrderWithPayment
  simp [hu, hsid, hc, hchk, hstale, hfind, hcf, hempty]

theorem insertOrderRow_fresh_eval (env : DbEnv) (u a s sid : String) (t : Int) (st : Store)
    (hoi : env.orderInsertFail = false)
    (hany : st.orders.any (fun o => o.stripe_session_id = sid) = false) :
    insertOrderRow env u a s sid t st =
      (Except.ok (InsertOutcome.fresh (newOrderRow u a s sid t st)),
       { st with orders := st.orders ++ [newOrderRow u a s sid t st],
                 nextOrderId := st.nextOrderId + 1 }) := by
  unfold insertOrderRow
  simp [hoi, hany]

theorem clearCartItems_success (env : DbEnv) (cid : String) (st : Store)
    (hcid : cid ≠ "") (hclf : env.clearFetchFail = false) (hcld : env.clearDeleteFail = false)
    (hne : st.cart_items.filter (fun ci => ci.cart_id = cid) ≠ []) :
    clearCartItems env cid st =
      (Except.ok
        { success := true,
          deletedCount := (st.cart_items.filter (fun ci => ci.cart_id = cid)).length,
          message := "Cart items cleared successfully",
          deletedItems := st.cart_items.filter (fun ci => ci.cart_id = cid),
          cartId := some cid },
       { st with cart_items := st.cart_items.filter (fun ci => ¬ ci.cart_id = cid) }) := by
  unfold clearCartItems
  simp [hcid, hclf, hcld, List.isEmpty_iff, hne]

theorem joinCart_ne_nil {st : Store} {c : String} (h : joinCart st c ≠ []) :
    st.cart_items.filter (fun ci => ci.cart_id = c) ≠ [] := by
  unfold joinCart at h
  intro h2
  exact h (by rw [h2]; rfl)

theorem finishOrder_success (env : DbEnv) (c : String) (order : Order)
    (rows : List JoinedCartItem) (st1 : Store)
    (hii : env.itemsInsertFail = false) (hc : c ≠ "")
    (hclf : env.clearFetchFail = false) (hcld : env.clearDeleteFail = false)
    (hne : st1.cart_items.filter (fun ci => ci.cart_id = c) ≠ []) :
    (finishOrder env c order rows st1).1 = Except.ok
      { success := true, order := order,
        orderItems := rows.map (buildOrderItem order.id),
        message := none, isExisting := false,
        cartCleared := some
          { success := true,
            deletedCount := (st1.cart_items.filter (fun ci => ci.cart_id = c)).length,
            message := "Cart items cleared successfully",
            deletedItems := st1.cart_items.filter (fun ci => ci.cart_id = c),
            cartId := some c },
        emailSent := true } ∧
    (finishOrder env c order rows st1).2.orders = st1.orders ∧
    (finishOrder env c order rows st1).2.order_items =
      st1.order_items ++ rows.map (buildOrderItem order.id) ∧
    (finishOrder env c order rows st1).2.cart_items =
      st1.cart_items.filter (fun ci => ¬ ci.cart_id = c) := by
  have hc3 : ((updateInventory env (rows.map (buildOrderItem order.id))
      { st1 with order_items := st1.order_items ++ rows.map (buildOrderItem order.id) }).2).cart_items
      = st1.cart_items :=
    (updateInventory_frame _ _ _).2.2.1
  have hclear := clearCartItems_success env c
    ((updateInventory env (rows.map (buildOrderItem order.id))
      { st1 with order_items := st1.order_items ++ rows.map (buildOrderItem order.id) }).2)
    hc hclf hcld (by rw [hc3]; exact hne)
  unfold finishOrder
  rw [hii]
  simp only [Bool.false_eq_true, if_false, hclear, hc3]
  exact ⟨trivial, (updateInventory_frame _ _ _).1, (updateInventory_frame _ _ _).2.1, trivial⟩

/-- C4 (amended): with the order and order-item writes and the cart
clearing succeeding, failures injected into the inventory update
(`invFetchFail`/`invUpdateFail` arbitrary) and the confirmation email
(`emailFail` arbitrary) do not change the outcome: the call still returns
success with the created order and items, and both rows persist in the
store.  (Cart clearing is NOT such a best-effort step — see the
counterexample.) -/
theorem C4_best_effort_failures_nonfatal
    (env : DbEnv) (u c a s sid : String) (st : Store)
    (hu : u ≠ "") (hsid : sid ≠ "") (hc : c ≠ "")
    (hchk : env.checkFail = false) (hstale : env.staleRead = false)
    (hfind : st.orders.find? (fun o2 => o2.stripe_session_id = sid) = none)
    (hcf : env.cartFetchFail = false) (hne : joinCart st c ≠ [])
    (hoi : env.orderInsertFail = false) (hii : env.itemsInsertFail = false)
    (hclf : env.clearFetchFail = false) (hcld : env.clearDeleteFail = false) :
    (createOrderWithPayment env u c a s sid st).1 = Except.ok
      { success := true,
        order := newOrderRow u a s sid (orderTotal (joinCart st c)) st,
        orderItems := (joinCart st c).map (buildOrderItem st.nextOrderId),
        message := none, isExisting := false,
        cartCleared := some
          { success := true,
            deletedCount := (st.cart_items.filter (fun ci => ci.cart_id = c)).length,
            message := "Cart items cleared successfully",
            deletedItems := st.cart_items.filter (fun ci => ci.cart_id = c),
            cartId := some c },
        emailSent := true } ∧
    (createOrderWithPayment env u c a s sid st).2.orders =
      st.orders ++ [newOrderRow u a s sid (orderTotal (joinCart st c)) st] ∧
    (createOrderWithPayment env u c a s sid st).2.order_items =
      st.order_items ++ (joinCart st c).map (buildOrderItem st.nextOrderId) := by
  have hany := find?_none_any_false hfind
  have hmain : createOrderWithPayment env u c a s sid st =
      finishOrder env c (newOrderRow u a s sid (orderTotal (joinCart st c)) st) (joinCart st c)
        { st with orders := st.orders ++ [newOrderRow u a s sid (orderTotal (joinCart st c)) st],
                  nextOrderId := st.nextOrderId + 1 } := by
    unfold createOrderWithPayment
    simp [hu, hsid, hc, hchk, hstale, hfind, hcf, List.isEmpty_iff, hne,
      insertOrderRow_fresh_eval env u a s sid (orderTotal (joinCart st c)) st hoi hany]
  obtain ⟨h1, h2, h3, h4⟩ := finishOrder_success env c
    (newOrderRow u a s sid (orderTotal (joinCart st c)) st) (joinCart st c)
    { st with orders := st.orders ++ [newOrderRow u a s sid (orderTotal (joinCart st c)) st],
              nextOrderId := st.nextOrderId + 1 }
    hii hc hclf hcld (joinCart_ne_nil hne)
  rw [hmain]
  exact ⟨h1, h2, h3⟩


/-- C4 counterexample: with only the cart-items delete failing, the Order
and OrderItem rows are durably written, yet `createOrderWithPayment`
throws "Failed to delete cart items" instead of returning success — the
`clearCartItems` call is not wrapped in try/catch, refuting the claim that
a cart-clearing failure is logged but non-fatal. -/
theorem C4_counterexample_cart_clear_fatal :
    (createOrderWithPayment clearFailEnv "u1" "c1" "addr" "processing" "sess1" demoStore).1 =
      Except.error "Failed to delete cart items" ∧
    (createOrderWithPayment clearFailEnv "u1" "c1" "addr" "processing" "sess1" demoStore).2.orders
      = [demoNewOrder] ∧
    (createOrderWithPayment clearFailEnv "u1" "c1" "addr" "processing" "sess1" demoStore).2.order_items
      = [demoOrderItemRow] :=
  ⟨by decide, by decide, by decide⟩

/-- C4 witness: concrete invocation with both the inventory update and the
email failing still returns the full success result, with the order and
item rows present. -/
theorem C4_best_effort_failures_nonfatal_witness :
    (createOrderWithPayment bestEffortEnv "u1" "c1" "addr" "processing" "sess1" demoStore).1 =
      Except.ok demoSuccess ∧
    (createOrderWithPayment bestEffortEnv "u1" "c1" "addr" "processing" "sess1" demoStore).2.orders
      = [demoNewOrder] ∧
    (createOrderWithPayment bestEffortEnv "u1" "c1" "addr" "processing" "sess1" demoStore).2.order_items
      = [demoOrderItemRow] := by
  have h := C4_best_effort_failures_nonfatal bestEffortEnv "u1" "c1" "addr" "processing" "sess1"
    demoStore (by decide) (by decide) (by decide) rfl rfl rfl rfl (by decide) rfl rfl rfl rfl
  exact ⟨h.1, h.2.1, h.2.2⟩

/-- C5 (amended): the effective unit price is `sale_price` when it is
present, non-null AND non-zero (JS `||` truthiness), and `price`
otherwise (including when `sale_price` is the number 0); the order total
is the sum over the joined cart rows of effective price times quantity;
the spec's two examples evaluate to 240 and 100 as claimed. -/
theorem C5_effective_price_and_totals :
    (∀ p : Product, effectivePrice p =
      (match p.sale_price with
       | some sp => if sp = 0 then p.price else sp
       | none => p.price)) ∧
    (∀ rows : List JoinedCartItem,
      orderTotal rows = (rows.map (fun r => itemPrice r.products * r.item.quantity)).sum) ∧
    effectivePrice demoProduct = 80 ∧ effectivePrice demoProduct * 3 = 240 ∧
    effectivePrice priceOnlyProduct = 50 ∧ effectivePrice priceOnlyProduct * 2 = 100 := by
  refine ⟨?_, ?_, rfl, rfl, rfl, rfl⟩
  · intro p
    unfold effectivePrice jsNum
    cases p.sale_price with
    | none => by_cases h : p.price = 0 <;> simp [h]
    | some sp => by_cases h : sp = 0 <;> by_cases h2 : p.price = 0 <;> simp [h, h2]
  · intro rows
    unfold orderTotal
    rw [foldl_add_map]
    simp

/-- C9 (amended): the checkout handler reports as `totalAmount` the sum of
the client-supplied `total` fields; this equals the sum of
`price × quantity` exactly when every item's `total` agrees with its
`price × quantity`. -/
theorem C9_total_is_sum_of_client_totals
    (userId userEmail : String) (items : List FormattedCartItem)
    (hu : userId ≠ "") (hne : items ≠ [])
    (ht : ∀ i ∈ items, i.total = i.price * i.quantity) :
    (createPayment userId userEmail items).map (fun resp => resp.totalAmount) =
      some (specCheckoutTotal items) ∧
    createPaymentTotal items = (items.map (fun i => i.total)).sum := by
  have hbase : createPaymentTotal items = (items.map (fun i => i.total)).sum := by
    unfold createPaymentTotal
    rw [foldl_add_map]
    simp
  refine ⟨?_, hbase⟩
  unfold createPayment
  simp [hu, List.isEmpty_iff, hne]
  unfold specCheckoutTotal
  rw [hbase]
  exact sum_map_congr ht

/-- C9 witness: a consistent line (`price=10, quantity=2, total=20`) makes
the handler report exactly the `price × quantity` sum. -/
theorem C9_total_is_sum_of_client_totals_witness :
    (createPayment "u1" "a@b.com" [consistentItem]).map (fun resp => resp.totalAmount) =
      some (specCheckoutTotal [consistentItem]) ∧
    createPaymentTotal [consistentItem] = ([consistentItem].map (fun i => i.total)).sum :=
  C9_total_is_sum_of_client_totals "u1" "a@b.com" [consistentItem]
    (by decide) (by decide) (by decide)

/-- C10: whenever `createOrderWithPayment` returns a new-order result
(`isExisting = false`), the result's `emailSent` field is `true`, whatever
the email outcome was — the field records that sending was attempted, not
that it succeeded. -/
theorem C10_emailSent_reports_attempt
    (env : DbEnv) (u c a s sid : String) (st : Store) (r : CreateResult) (st2 : Store)
    (h : createOrderWithPayment env u c a s sid st = (Except.ok r, st2))
    (hnew : r.isExisting = false) : r.emailSent = true := by
  unfold createOrderWithPayment at h
  split at h
  · exact Except.noConfusion (pair_eq_fst h)
  split at h
  · exact Except.noConfusion (pair_eq_fst h)
  split at h
  · exact Except.noConfusion (pair_eq_fst h)
  split at h
  · exact Except.noConfusion (pair_eq_fst h)
  split at h
  next o heq =>
    have h1 := pair_eq_fst h
    injection h1 with h3
    rw [← h3] at hnew
    simp at hnew
  next heq =>
    split at h
    · exact Except.noConfusion (pair_eq_fst h)
    split at h
    · exact Except.noConfusion (pair_eq_fst h)
    split at h
    next e st3 heq2 => exact Except.noConfusion (pair_eq_fst h)
    next r2 st3 heq2 =>
      have h1 := pair_eq_fst h
      injection h1 with h3
      have hex := (insertOrderRow_dup heq2).2.1
      rw [h3, hnew] at hex
      exact Bool.noConfusion hex
    next order st3 heq2 =>
      exact (finishOrder_ok h).2.2.1

/-- C10 witness: a concrete new-order run with the email failing still
reports `emailSent = true`. -/
theorem C10_emailSent_reports_attempt_witness : demoSuccess.emailSent = true :=
  C10_emailSent_reports_attempt emailFailEnv "u1" "c1" "addr" "processing" "sess1"
    demoStore demoSuccess demoStoreAfter (by decide) rfl

/-- C1 witness: a second invocation for session `sess1` against the store
already holding its order keeps a single order row and returns the
already-exists result referencing the same id. -/
theorem C1_idempotency_per_session_witness :
    ordersFor (createOrderWithPayment DbEnv.allOk "u1" "c1" "addr" "processing" "sess1"
      demoStoreAfter).2 "sess1" ≤ 1 ∧
    demoExistingResult.isExisting = true ∧ demoExistingResult.order.id = demoNewOrder.id := by
  have hmain := C1_idempotency_per_session DbEnv.allOk "u1" "c1" "addr" "processing" "sess1"
    demoStoreAfter (by decide)
  exact ⟨hmain.1, hmain.2 demoNewOrder (by decide) rfl demoExistingResult (by decide)⟩

/-- C6 witness: the short-circuit return on the store already holding the
`sess1` order, evaluated concretely. -/
theorem C6_existing_order_short_circuit_witness :
    createOrderWithPayment DbEnv.allOk "u1" "c1" "addr" "processing" "sess1" demoStoreAfter =
      (Except.ok demoExistingResult, demoStoreAfter) :=
  C6_existing_order_short_circuit DbEnv.allOk "u1" "c1" "addr" "processing" "sess1"
    demoStoreAfter demoNewOrder (by decide) (by decide) (by decide) rfl rfl (by decide)

/-- C7 witness: a concrete call on an empty cart fails with the
"No cart items found" error and leaves the store untouched. -/
theorem C7_empty_cart_rejected_witness :
    createOrderWithPayment DbEnv.allOk "u1" "c1" "addr" "processing" "sess1" emptyCartStore =
      (Except.error "No cart items found", emptyCartStore) :=
  C7_empty_cart_rejected DbEnv.allOk "u1" "c1" "addr" "processing" "sess1" emptyCartStore
    (by decide) (by decide) (by decide) rfl rfl rfl rfl rfl

end StripeEcommerce
